import Mathlib

/-!
# Verification of the seed-maker predicate framework and search engine

Shallow embedding of `seed-maker` (Rust): the predictor combinators
(`src/seed-maker/src/lib.rs`, `garbage.rs`, `geode.rs`, `night_event.rs`,
`weather.rs`) and the synchronous / streaming seed-search engine.

Modelling conventions:
* Machine integers become `Nat`/`Int` (`u32` casts keep an explicit `% 2^32`
  where the source performs an `as u32` cast).
* The `f64` chance fields consumed by the `Weather` predictor are modelled as
  `Rat`; the predictor only compares them against the constants `0.0`/`1.0`.
* The domain simulation functions from the external `sdv` crate
  (`predict_garbage`, `predict_single_geode`, `predict_night_event`,
  `predict_weather`) and the fallible constructors it exposes
  (`ItemId::parse`, `GarbageCan::new`, `geode::Geode::new`,
  `location_contexts.get`) are not part of this repository; they are taken
  as components of an explicit environment record (`Env`, `BuildEnv`).
* Fallible Rust code (`Result<T>`) becomes `Except Err T`.  A Rust
  `.unwrap()` on an `Err` panics; inside the rayon scan closures this panic
  aborts the whole scan, which the model renders as the scan function
  returning `Except.error` (it can return no seed list).
* The rayon parallel `filter(...).take_any(n)` pipeline is modelled by its
  sequential schedule: filter the scanned range in order, then take the
  first `n` matches.  This is one admissible schedule of the parallel
  engine; predicate evaluation itself is pure, so the per-seed verdicts are
  schedule independent.
-/

/-- Errors (`anyhow::Error`) are modelled by their message strings. -/
abbrev Err := String

/-- Source `sdv::common::ItemId`, modelled by the raw item-id string. -/
abbrev ItemId := String

/-- Source `sdv::predictor::garbage::GarbageCanLocation` (external enum). -/
abbrev GarbageCanLocation := String

/-- Source `sdv::predictor::garbage::GarbageCan`: opaque per-location data built by
the external `GarbageCan::new`; only its `location` is inspected here. -/
structure GarbageCan where
  location : GarbageCanLocation
deriving Repr, DecidableEq

/-- The item drop returned by the external `predict_garbage` (first component
of its result pair); the predictor reads `item` and `quantity`. -/
structure GarbageDrop where
  item : ItemId
  quantity : Nat
deriving Repr, DecidableEq

/-- Source `sdv::predictor::geode::GeodeType` (external serde enum), by name. -/
abbrev GeodeType := String

/-- Source `sdv::predictor::geode::Geode`: opaque data built by the external
`geode::Geode::new`, passed through to `predict_single_geode`. -/
abbrev GeodeData := String

/-- The reward returned by the external `predict_single_geode`. -/
structure GeodeReward where
  item : ItemId
  quantity : Nat
deriving Repr, DecidableEq

/-- Source `sdv::predictor::night_event::NightEvent` (external enum), by name. -/
abbrev NightEventTy := String

/-- Source `sdv::predictor::weather::WeatherLocation` (external), by name. -/
abbrev WeatherLocation := String

/-- The chance record returned by the external `predict_weather`.  The `f64`
fields are modelled as `Rat` (the source field name `fesival` is kept). -/
structure WeatherChances where
  sun : Rat
  rain : Rat
  wind : Rat
  storm : Rat
  snow : Rat
  fesival : Rat
  green_rain : Rat
deriving Repr, DecidableEq

/-- Source `sdv::predictor::PredictionGameState` (the WorldState): `game_id : u32`,
`multiplayer_id : i64`, `days_played : u32`, `daily_luck : f64`,
`geodes_cracked : u32`, `deepest_mine_level : u32`. -/
structure PredictionGameState where
  game_id : Nat
  multiplayer_id : Int
  days_played : Nat
  daily_luck : Rat
  geodes_cracked : Nat
  deepest_mine_level : Nat
deriving Repr, DecidableEq

/-- The external `sdv` simulation functions consumed by the leaf predictors.
`predict_night_event` takes `&mut state` in the source, so it is modelled as
returning the (possibly modified) state alongside the event; the callers in
this repository pass it a clone and discard the modified state.  The type
parameter `G : SeedGenerator` of the Rust predictors is phantom data whose
only effect is selecting these external functions, so it is folded into the
choice of environment. -/
structure Env where
  predict_garbage : GarbageCan → PredictionGameState → Except Err (Option (GarbageDrop × Rat))
  predict_single_geode : GeodeData → PredictionGameState → Except Err GeodeReward
  predict_night_event : PredictionGameState → NightEventTy × PredictionGameState
  predict_weather : WeatherLocation → PredictionGameState → WeatherChances

/-- The predictor object graph produced by the builder: one constructor per
`Predictor` implementation (`DayRange`, `Garbage`, `Geode`, `NightEvent`,
`Weather`), holding exactly the fields the Rust structs hold (minus the
phantom `G`; `Geode` keeps its report-only `geode_type` field). -/
inductive Predictor where
  | dayRange (start_day end_day : Nat) (min_matches : Nat) (child : Predictor)
  | garbage (items : List ItemId) (cans : List GarbageCan)
  | geode (item : ItemId) (quantity : Nat) (geode : GeodeData) (geode_type : GeodeType)
  | nightEvent (event : NightEventTy)
  | weather (is_rain is_storm maybe_storm : Bool) (location : WeatherLocation)
deriving Repr, DecidableEq

/-- The derived state `PredictionGameState { days_played: day, ..*state }`
built by `DayRange::predict` for each day of its range. -/
def withDay (st : PredictionGameState) (d : Nat) : PredictionGameState :=
  { st with days_played := d }

/-- The first loop of `Garbage::predict` (garbage.rs:73-79): run
`predict_garbage` on every can, collecting the drop of each `Some`
prediction; a delegate error propagates (`?`). -/
def collectDrops (env : Env) (cans : List GarbageCan) (st : PredictionGameState) :
    Except Err (List GarbageDrop) :=
  match cans with
  | [] => .ok []
  | can :: rest =>
    match env.predict_garbage can st with
    | .error e => .error e
    | .ok p? =>
      match collectDrops env rest st with
      | .error e => .error e
      | .ok tail =>
        match p? with
        | some p => .ok (p.1 :: tail)
        | none => .ok tail

/-- The day loop of `DayRange::predict` (lib.rs:186-194): evaluate the
child's predict function on the state with each day substituted, counting
successes; a child error propagates (`?`). -/
def countMatchesF (child : PredictionGameState → Except Err Bool)
    (st : PredictionGameState) : List Nat → Except Err Nat
  | [] => .ok 0
  | d :: ds =>
    match child (withDay st d) with
    | .error e => .error e
    | .ok b =>
      match countMatchesF child st ds with
      | .error e => .error e
      | .ok n => .ok ((if b then 1 else 0) + n)

/-- Source `Predictor::predict` for the whole graph.  Each case is the `predict`
body of the corresponding Rust impl:
* `DayRange` (lib.rs:183-197): count the child's successes over the days
  `start_day..=end_day` and succeed iff at least `min_matches`;
* `Garbage` (garbage.rs:72-85): every required item must appear among the
  collected can drops;
* `Geode` (geode.rs:80-83): one `predict_single_geode` reward must match the
  configured item with at least the configured quantity;
* `NightEvent` (night_event.rs:52-56): `predict_night_event` on a clone of
  the state (the modified clone is discarded) must equal the configured
  event;
* `Weather` (weather.rs:87-92): the configured flags must hold of the
  `predict_weather` chances. -/
def predict (env : Env) : Predictor → PredictionGameState → Except Err Bool
  | .dayRange start_day end_day min_matches child => fun st =>
    match countMatchesF (predict env child) st
        (List.range' start_day (end_day + 1 - start_day)) with
    | .error e => .error e
    | .ok sucesses => .ok (decide (min_matches ≤ sucesses))
  | .garbage items cans => fun st =>
    match collectDrops env cans st with
    | .error e => .error e
    | .ok results =>
      .ok (items.all fun item => results.any fun drop => drop.item == item)
  | .geode item quantity gd _gt => fun st =>
    match env.predict_single_geode gd st with
    | .error e => .error e
    | .ok reward => .ok (reward.item == item && decide (quantity ≤ reward.quantity))
  | .nightEvent event => fun st =>
    .ok ((env.predict_night_event st).1 == event)
  | .weather is_rain is_storm maybe_storm location => fun st =>
    let weather := env.predict_weather location st
    .ok ((!is_rain || decide ((1 : Rat) ≤ weather.rain + weather.storm))
      && (!is_storm || decide ((1 : Rat) ≤ weather.storm))
      && (!maybe_storm || decide ((0 : Rat) ≤ weather.storm)))

/-- Source `RngType` (lib.rs:227-233). -/
inductive RngType where
  | hashed
  | legacy
deriving Repr, DecidableEq

/-- Source `SeedFinderStateConfig` (lib.rs:246-278). -/
structure SeedFinderStateConfig where
  multiplayer_id : Int
  day : Nat
  daily_luck : Rat
  geodes_cracked : Nat
  deepest_mine_level : Nat
deriving Repr, DecidableEq

/-- Source `impl From<SeedFinderStateConfig> for PredictionGameState`
(lib.rs:280-291): copy the five configured fields, remaining field
(`game_id`) from `Default::default()`. -/
def SeedFinderStateConfig.toState (c : SeedFinderStateConfig) : PredictionGameState :=
  { game_id := 0
    multiplayer_id := c.multiplayer_id
    days_played := c.day
    daily_luck := c.daily_luck
    geodes_cracked := c.geodes_cracked
    deepest_mine_level := c.deepest_mine_level }

/-- Source `PredictorConfig` (lib.rs:307-322) with each variant's config struct
(`DayRangeConfig`, `GarbageConfig`, `GeodeConfig`, `NightEventConfig`,
`WeatherConfig`) inlined as constructor fields in source order. -/
inductive PredictorConfig where
  | dayRange (start_day end_day : Nat) (min_matches : Nat) (child : PredictorConfig)
  | garbage (items : List String)
  | geode (item : String) (quantity : Nat) (geode_type : GeodeType)
  | nightEvent (event : NightEventTy)
  | weather (is_rain is_storm maybe_storm : Bool)
deriving Repr, DecidableEq

/-- Source `SeedFinderConfig` (lib.rs:359-372). -/
structure SeedFinderConfig where
  rng_type : RngType
  max_seeds : Nat
  game_state : SeedFinderStateConfig
  predictors : List PredictorConfig
deriving Repr, DecidableEq

/-- Source `SeedFinder` (lib.rs:376-380). -/
structure SeedFinder where
  max_seeds : Nat
  initial_state : PredictionGameState
  predictors : List Predictor
deriving Repr, DecidableEq

/-- The fallible constructors of the external `sdv` crate used while
building predictors from configuration. -/
structure BuildEnv where
  parseItemId : String → Except Err ItemId
  garbageCanLocations : List GarbageCanLocation
  newGarbageCan : GarbageCanLocation → Except Err GarbageCan
  newGeode : GeodeType → Except Err GeodeData
  locationContexts : String → Option WeatherLocation

/-- Rust `.iter().map(g).collect::<Result<Vec<_>>>()`: apply `g` to every
element in order, stopping at the first error. -/
def mapExcept {α β : Type} (g : α → Except Err β) : List α → Except Err (List β)
  | [] => .ok []
  | a :: rest =>
    match g a with
    | .error e => .error e
    | .ok b =>
      match mapExcept g rest with
      | .error e => .error e
      | .ok bs => .ok (b :: bs)

/-- Source `PredictorConfig::predictor` (lib.rs:328-355) together with each
predictor's `new`:
* `DayRange::new` (lib.rs:159-168): build the child first (`?`);
* `Garbage::new` (garbage.rs:44-59): build a can per `GarbageCanLocation`
  (`?`), then parse every configured item id (`?`);
* `Geode::new` (geode.rs:55-64): parse the item id (`?`), then build the
  geode data (`?`);
* `NightEvent::new` (night_event.rs:34-41): infallible;
* `Weather::new` (weather.rs:52-67): look up the `"Default"` location
  context, erroring when missing. -/
def PredictorConfig.predictor (benv : BuildEnv) : PredictorConfig → Except Err Predictor
  | .dayRange start_day end_day min_matches child =>
    match child.predictor benv with
    | .error e => .error e
    | .ok c => .ok (.dayRange start_day end_day min_matches c)
  | .garbage items =>
    match mapExcept benv.newGarbageCan benv.garbageCanLocations with
    | .error e => .error e
    | .ok cans =>
      match mapExcept benv.parseItemId items with
      | .error e => .error e
      | .ok its => .ok (.garbage its cans)
  | .geode item quantity geode_type =>
    match benv.parseItemId item with
    | .error e => .error e
    | .ok it =>
      match benv.newGeode geode_type with
      | .error e => .error e
      | .ok gd => .ok (.geode it quantity gd geode_type)
  | .nightEvent event => .ok (.nightEvent event)
  | .weather is_rain is_storm maybe_storm =>
    match benv.locationContexts "Default" with
    | none => .error "can't find default location context"
    | some loc => .ok (.weather is_rain is_storm maybe_storm loc)

/-- Source `SeedFinder::new` (lib.rs:394-414): derive the initial state from the
config and build every configured predictor, propagating the first error.
The two `rng_type` arms of the source instantiate the same builder at
`HashedSeedGenerator` / `LegacySeedGenerator`; the generator is phantom and
only selects external functions, which live in the environment here. -/
def SeedFinder.new (benv : BuildEnv) (config : SeedFinderConfig) : Except Err SeedFinder :=
  let initial_state := config.game_state.toState
  match
    (match config.rng_type with
     | .hashed => mapExcept (PredictorConfig.predictor benv) config.predictors
     | .legacy => mapExcept (PredictorConfig.predictor benv) config.predictors) with
  | .error e => .error e
  | .ok predictors =>
    .ok { max_seeds := config.max_seeds, initial_state, predictors }

/-- The `seed as u32` cast applied when storing a scanned seed into
`game_id` (lib.rs:422, 467, 501). -/
def seedToGameId (s : Int) : Nat := (s % (2 ^ 32 : Int)).toNat

/-- The per-seed derived state
`PredictionGameState { game_id: seed as u32, ..initial_state }`. -/
def withSeed (st : PredictionGameState) (s : Int) : PredictionGameState :=
  { st with game_id := seedToGameId s }

/-- The predictor loop of the scan closures (lib.rs:426-431, 470-475):
evaluate the predictors left to right, returning `false` at the first
failing one.  The source calls `.unwrap()` on each `predict` result: an
`Err` panics the worker, modelled as `Except.error` (the panic aborts the
scan). -/
def conjPredict (env : Env) : List Predictor → PredictionGameState → Except Err Bool
  | [], _ => .ok true
  | p :: rest, st =>
    match predict env p st with
    | .error e => .error e
    | .ok false => .ok false
    | .ok true => conjPredict env rest st

/-- The full per-seed test of the scan closures: derive the state for the
seed and run the predictor loop. -/
def seedPasses (env : Env) (f : SeedFinder) (s : Int) : Except Err Bool :=
  conjPredict env f.predictors (withSeed f.initial_state s)

/-- Source `i32::MAX`. -/
def i32MaxNat : Nat := 2147483647

/-- The scanned candidate range `0..i32::MAX` (lib.rs:418, 447). -/
def scanSeeds : List Int := (List.range i32MaxNat).map Int.ofNat

/-- Sequential schedule of the rayon `filter` stage: keep the seeds whose
per-seed test returns `true`, in scan order; a panic (`Except.error`)
aborts the whole scan. -/
def filterSeeds (env : Env) (f : SeedFinder) : List Int → Except Err (List Int)
  | [] => .ok []
  | s :: rest =>
    match seedPasses env f s with
    | .error e => .error e
    | .ok b =>
      match filterSeeds env f rest with
      | .error e => .error e
      | .ok tail => .ok (if b then s :: tail else tail)

/-- All matching seeds of the full scan (the filter stage before
`take_any`). -/
def findSeedsAll (env : Env) (f : SeedFinder) : Except Err (List Int) :=
  filterSeeds env f scanSeeds

/-- Source `SeedFinder::find_seeds` (lib.rs:417-435): filter `0..i32::MAX` by the
predictor conjunction and collect at most `max_seeds` matches
(`take_any(max_seeds)`, here the sequential schedule's first matches). -/
def SeedFinder.find_seeds (env : Env) (f : SeedFinder) : Except Err (List Int) :=
  (findSeedsAll env f).map (fun ms => ms.take f.max_seeds)

/-- Source `Progress` (lib.rs:384-390). -/
inductive Progress where
  | progress (count : Nat)
  | complete (seeds : List Int)
deriving Repr, DecidableEq

/-- Source `step_size = i32::MAX as usize / steps` (lib.rs:445). -/
def stepSize (steps : Nat) : Nat := i32MaxNat / steps

/-- The progress bookkeeping at the head of the async filter closure
(lib.rs:461-464): when the seed is the first candidate of a progress step
(`seed % step_size == 0`), `fetch_add` the step width onto the shared
counter and send a `Progress` message carrying the fetched (pre-advance)
value plus one.  Returns the new counter value and the message sent, if
any. -/
def asyncStep (step_size : Nat) (counter : Nat) (seed : Int) : Nat × Option Nat :=
  if seed.toNat % step_size == 0 then
    (counter + step_size, some (counter + 1))
  else
    (counter, none)

/-- Sequential schedule of the async scan's filter stage (lib.rs:452-479):
per seed, run the progress bookkeeping, then the same per-seed test as the
synchronous scan.  Returns the final counter, the progress-message values
in emission order, and the matching seeds. -/
def asyncFilterSeeds (env : Env) (f : SeedFinder) (step_size : Nat) (counter : Nat) :
    List Int → Except Err (Nat × List Nat × List Int)
  | [] => .ok (counter, [], [])
  | s :: rest =>
    let step := asyncStep step_size counter s
    match seedPasses env f s with
    | .error e => .error e
    | .ok b =>
      match asyncFilterSeeds env f step_size step.1 rest with
      | .error e => .error e
      | .ok (c2, msgs, seeds) =>
        .ok (c2, step.2.toList ++ msgs, if b then s :: seeds else seeds)

/-- Source `SeedFinder::find_seeds_async` (lib.rs:443-484): the channel's contents
over the whole run — every `Progress::Progress` message in emission order,
then the terminal `Progress::Complete` carrying the (at most `max_seeds`)
matches.  A panic inside the spawned scan is modelled as `Except.error`
(no terminal message is ever delivered). -/
def SeedFinder.find_seeds_async (env : Env) (f : SeedFinder) (steps : Nat) :
    Except Err (List Progress) :=
  (asyncFilterSeeds env f (stepSize steps) 0 scanSeeds).map
    (fun r => r.2.1.map Progress.progress ++ [Progress.complete (r.2.2.take f.max_seeds)])

/-- Does an `Except Err Bool` hold the verdict `Ok(true)`? -/
def isOkTrue : Except Err Bool → Bool
  | .ok true => true
  | _ => false

/-- Modelled from the spec: "evaluating all [predicates] and AND-ing"
(§8, short-circuit equivalence) — the non-short-circuit reference
semantics of the top-level conjunction, evaluating every predictor and
AND-ing the results. -/
def evalAllAnd (env : Env) : List Predictor → PredictionGameState → Except Err Bool
  | [], _ => .ok true
  | p :: rest, st =>
    match predict env p st, evalAllAnd env rest st with
    | .error e, _ => .error e
    | .ok _, .error e => .error e
    | .ok b, .ok c => .ok (b && c)

/-! ### Concrete instances used to exercise the theorems -/

/-- The weather location every `Weather` predictor is built with. -/
def wLoc : WeatherLocation := "Default"

/-- An environment whose weather simulation never predicts rain (and whose
geode simulation fails, exercising that an uninvoked predictor does not
matter). -/
def envNoRain : Env :=
  { predict_garbage := fun _ _ => .ok none
    predict_single_geode := fun _ _ => .error "geode data unavailable"
    predict_night_event := fun st => ("none", st)
    predict_weather := fun _ _ =>
      { sun := 1, rain := 0, wind := 0, storm := 0, snow := 0, fesival := 0, green_rain := 0 } }

/-- An environment whose weather simulation predicts rain exactly on
even-numbered days. -/
def envEvenRain : Env :=
  { predict_garbage := fun _ _ => .ok none
    predict_single_geode := fun _ _ => .error "geode data unavailable"
    predict_night_event := fun st => ("none", st)
    predict_weather := fun _ st =>
      { sun := 0, rain := if st.days_played % 2 == 0 then 1 else 0, wind := 0, storm := 0,
        snow := 0, fesival := 0, green_rain := 0 } }

/-- An environment whose garbage simulation fails on every query. -/
def envGarbageFail : Env :=
  { predict_garbage := fun _ _ => .error "garbage data unavailable"
    predict_single_geode := fun _ _ => .error "geode data unavailable"
    predict_night_event := fun st => ("none", st)
    predict_weather := fun _ _ =>
      { sun := 1, rain := 0, wind := 0, storm := 0, snow := 0, fesival := 0, green_rain := 0 } }

/-- A `Weather` predictor requiring rain. -/
def rainPredictor : Predictor := .weather true false false wLoc

/-- A `Geode` predictor (its delegate fails in the sample environments). -/
def geodePredictor : Predictor := .geode "(O)378" 1 "geode" "geode"

/-- A concrete initial game state. -/
def stateW : PredictionGameState :=
  { game_id := 0, multiplayer_id := 0, days_played := 1, daily_luck := 0,
    geodes_cracked := 1, deepest_mine_level := 0 }

/-- A finder whose single predictor requires rain. -/
def finderNoRain : SeedFinder :=
  { max_seeds := 5, initial_state := stateW, predictors := [rainPredictor] }

/-- A finder whose single predictor is a `Garbage` predictor with no
required items and a single can. -/
def finderGarbage : SeedFinder :=
  { max_seeds := 5, initial_state := stateW, predictors := [.garbage [] [⟨"JojaMart"⟩]] }

/-- A build environment recognising a single item id and lacking the
`"Default"` location context. -/
def benvW : BuildEnv :=
  { parseItemId := fun s => if s = "(O)378" then .ok s else .error ("unknown item " ++ s)
    garbageCanLocations := ["JojaMart"]
    newGarbageCan := fun loc => .ok ⟨loc⟩
    newGeode := fun gt => .ok gt
    locationContexts := fun _ => none }

/-- A configuration referencing the unknown item id `"bogus"`. -/
def configBadItem : SeedFinderConfig :=
  { rng_type := .hashed, max_seeds := 5
    game_state := { multiplayer_id := 0, day := 1, daily_luck := 0,
                    geodes_cracked := 1, deepest_mine_level := 0 }
    predictors := [.geode "bogus" 1 "geode"] }

/-- Does a predictor configuration reference (possibly through `DayRange`
children) an item string the item parser rejects? -/
def refsBadItem (benv : BuildEnv) : PredictorConfig → Prop
  | .dayRange _ _ _ child => refsBadItem benv child
  | .garbage items => ∃ s ∈ items, ∃ e, benv.parseItemId s = .error e
  | .geode item _ _ => ∃ e, benv.parseItemId item = .error e
  | .nightEvent _ => False
  | .weather _ _ _ => False

/-- Does a predictor configuration (possibly through `DayRange` children)
build a `Weather` predictor, which must look up the `"Default"` location
context? -/
def usesDefaultContext : PredictorConfig → Prop
  | .dayRange _ _ _ child => usesDefaultContext child
  | .weather _ _ _ => True
  | _ => False

/-! ### Helper lemmas -/

/-- Source `Except.map` on a success. -/
theorem exceptMap_ok {α β : Type} (g : α → β) (a : α) :
    (Except.ok a : Except Err α).map g = .ok (g a) := rfl

/-- Source `Except.map` on an error. -/
theorem exceptMap_error {α β : Type} (g : α → β) (e : Err) :
    (Except.error e : Except Err α).map g = .error e := rfl

/-- The predictor loop returns `Ok(true)` exactly when every predictor in
the list returns `Ok(true)`. -/
theorem conjPredict_ok_true_iff (env : Env) (ps : List Predictor) (st : PredictionGameState) :
    conjPredict env ps st = .ok true ↔ ∀ p ∈ ps, predict env p st = .ok true := by
  induction ps with
  | nil => simp [conjPredict]
  | cons p rest ih =>
    cases h : predict env p st with
    | error e =>
      simp only [conjPredict, h]
      constructor
      · intro hc; cases hc
      · intro hall
        have hp := hall p (List.mem_cons_self p rest)
        rw [h] at hp
        cases hp
    | ok b =>
      cases b with
      | false =>
        simp only [conjPredict, h]
        constructor
        · intro hc; cases hc
        · intro hall
          have hp := hall p (List.mem_cons_self p rest)
          rw [h] at hp
          cases hp
      | true =>
        simp only [conjPredict, h, ih]
        constructor
        · intro hall q hq
          rcases List.mem_cons.mp hq with rfl | hq'
          · exact h
          · exact hall q hq'
        · intro hall q hq
          exact hall q (List.mem_cons_of_mem p hq)

/-- Membership in a successful sequential filter pass: a seed is kept iff
it was scanned and its per-seed test returned `Ok(true)`. -/
theorem filterSeeds_mem (env : Env) (f : SeedFinder) :
    ∀ (seeds out : List Int), filterSeeds env f seeds = .ok out →
      ∀ x : Int, x ∈ out ↔ (x ∈ seeds ∧ seedPasses env f x = .ok true) := by
  intro seeds
  induction seeds with
  | nil =>
    intro out h x
    simp only [filterSeeds] at h
    cases h
    simp
  | cons s rest ih =>
    intro out h x
    cases hp : seedPasses env f s with
    | error e => simp [filterSeeds, hp] at h
    | ok b =>
      cases hr : filterSeeds env f rest with
      | error e => simp [filterSeeds, hp, hr] at h
      | ok tail =>
        have hx := ih tail hr x
        cases b with
        | true =>
          simp only [filterSeeds, hp, hr, if_true] at h
          cases h
          simp only [List.mem_cons, hx]
          constructor
          · rintro (rfl | ⟨hxr, hpx⟩)
            · exact ⟨Or.inl rfl, hp⟩
            · exact ⟨Or.inr hxr, hpx⟩
          · rintro ⟨rfl | hxr, hpx⟩
            · exact Or.inl rfl
            · exact Or.inr ⟨hxr, hpx⟩
        | false =>
          simp only [filterSeeds, hp, hr, Bool.false_eq_true, if_false] at h
          cases h
          rw [hx]
          simp only [List.mem_cons]
          constructor
          · rintro ⟨hxr, hpx⟩
            exact ⟨Or.inr hxr, hpx⟩
          · rintro ⟨rfl | hxr, hpx⟩
            · rw [hp] at hpx
              cases hpx
            · exact ⟨hxr, hpx⟩

/-- The scanned range holds exactly the integers `0 ≤ s < i32::MAX`. -/
theorem mem_scanSeeds (s : Int) : s ∈ scanSeeds ↔ 0 ≤ s ∧ s < 2147483647 := by
  unfold scanSeeds i32MaxNat
  rw [List.mem_map]
  constructor
  · rintro ⟨n, hn, rfl⟩
    rw [List.mem_range] at hn
    simp only [Int.ofNat_eq_coe]
    omega
  · intro ⟨h0, h1⟩
    exact ⟨s.toNat, List.mem_range.mpr (by omega),
      by simp only [Int.ofNat_eq_coe]; omega⟩

/-- When every seed fails the per-seed test, the filter stage keeps
nothing. -/
theorem filterSeeds_of_all_false (env : Env) (f : SeedFinder)
    (hall : ∀ x : Int, seedPasses env f x = .ok false) :
    ∀ seeds, filterSeeds env f seeds = .ok [] := by
  intro seeds
  induction seeds with
  | nil => simp [filterSeeds]
  | cons s rest ih => simp [filterSeeds, hall s, ih]

/-- In `envNoRain`, the rain predictor rejects every state. -/
theorem rainPredictor_envNoRain_false (st : PredictionGameState) :
    predict envNoRain rainPredictor st = .ok false := by
  with_unfolding_all rfl

/-- In `envNoRain`, no seed passes `finderNoRain`. -/
theorem finderNoRain_all_false (s : Int) :
    seedPasses envNoRain finderNoRain s = .ok false := by
  with_unfolding_all rfl

/-! ### Claims -/

/-- Claim C1: for every seed `s` in the scanned range `[0, i32::MAX)`, when
`max_seeds` is at least the total number of matching seeds, the list
returned by `SeedFinder::find_seeds` contains `s` iff every configured
top-level predictor's `predict` returns `Ok(true)` on the state derived
from the initial template by setting the seed to `s`. -/
theorem find_seeds_conjunction_law (env : Env) (f : SeedFinder) (ms : List Int) (s : Int)
    (hall : findSeedsAll env f = .ok ms) (hcap : ms.length ≤ f.max_seeds)
    (hlo : 0 ≤ s) (hhi : s < 2147483647) :
    ∃ out, SeedFinder.find_seeds env f = .ok out ∧
      (s ∈ out ↔ ∀ p ∈ f.predictors, predict env p (withSeed f.initial_state s) = .ok true) := by
  refine ⟨ms, ?_, ?_⟩
  · unfold SeedFinder.find_seeds
    rw [hall, exceptMap_ok, List.take_of_length_le hcap]
  · rw [filterSeeds_mem env f scanSeeds ms hall s, mem_scanSeeds]
    constructor
    · rintro ⟨-, hp⟩
      exact (conjPredict_ok_true_iff env f.predictors (withSeed f.initial_state s)).mp hp
    · intro h2
      exact ⟨⟨hlo, hhi⟩,
        (conjPredict_ok_true_iff env f.predictors (withSeed f.initial_state s)).mpr h2⟩

/-- Witness for C1 at a concrete environment, finder and seed. -/
theorem find_seeds_conjunction_law_witness :
    (findSeedsAll envNoRain finderNoRain = .ok [] ∧ (0 : Nat) ≤ finderNoRain.max_seeds ∧
      (0 : Int) ≤ 5 ∧ (5 : Int) < 2147483647) ∧
    ∃ out, SeedFinder.find_seeds envNoRain finderNoRain = .ok out ∧
      ((5 : Int) ∈ out ↔ ∀ p ∈ finderNoRain.predictors,
        predict envNoRain p (withSeed finderNoRain.initial_state 5) = .ok true) :=
  ⟨⟨filterSeeds_of_all_false envNoRain finderNoRain finderNoRain_all_false scanSeeds,
      Nat.zero_le _, by decide, by decide⟩,
    find_seeds_conjunction_law envNoRain finderNoRain [] 5
      (filterSeeds_of_all_false envNoRain finderNoRain finderNoRain_all_false scanSeeds)
      (Nat.zero_le _) (by decide) (by decide)⟩

/-- Claim C2: whenever `find_seeds` returns a list, the list has length at
most `max_seeds`, and every seed on it independently satisfies the full
conjunction of top-level predictors when re-evaluated alone on the state
derived from that seed. -/
theorem find_seeds_sound (env : Env) (f : SeedFinder) (out : List Int)
    (h : SeedFinder.find_seeds env f = .ok out) :
    out.length ≤ f.max_seeds ∧
      ∀ s ∈ out, conjPredict env f.predictors (withSeed f.initial_state s) = .ok true := by
  unfold SeedFinder.find_seeds at h
  cases hall : findSeedsAll env f with
  | error e =>
    rw [hall, exceptMap_error] at h
    cases h
  | ok ms =>
    rw [hall, exceptMap_ok] at h
    injection h with h2
    subst h2
    refine ⟨?_, ?_⟩
    · calc (ms.take f.max_seeds).length = min f.max_seeds ms.length := List.length_take _ _
        _ ≤ f.max_seeds := Nat.min_le_left _ _
    · intro s hs
      have hsm : s ∈ ms := List.take_subset _ _ hs
      exact ((filterSeeds_mem env f scanSeeds ms hall s).mp hsm).2

/-- Witness for C2 at a concrete environment and finder. -/
theorem find_seeds_sound_witness :
    SeedFinder.find_seeds envNoRain finderNoRain = .ok [] ∧
    (([] : List Int).length ≤ finderNoRain.max_seeds ∧
      ∀ s ∈ ([] : List Int),
        conjPredict envNoRain finderNoRain.predictors
          (withSeed finderNoRain.initial_state s) = .ok true) := by
  have hall0 : findSeedsAll envNoRain finderNoRain = .ok [] :=
    filterSeeds_of_all_false envNoRain finderNoRain finderNoRain_all_false scanSeeds
  have hfs : SeedFinder.find_seeds envNoRain finderNoRain = .ok [] := by
    unfold SeedFinder.find_seeds
    rw [hall0, exceptMap_ok]
    rfl
  exact ⟨hfs, find_seeds_sound envNoRain finderNoRain [] hfs⟩

/-- Characterization of the day loop when the child succeeds on every day:
the count is the number of days whose verdict is `Ok(true)`. -/
theorem countMatchesF_filter (child : PredictionGameState → Except Err Bool)
    (st : PredictionGameState) :
    ∀ ds : List Nat, (∀ d ∈ ds, ∃ b, child (withDay st d) = .ok b) →
      countMatchesF child st ds =
        .ok ((ds.filter fun d => isOkTrue (child (withDay st d))).length) := by
  intro ds
  induction ds with
  | nil => intro _; rfl
  | cons d rest ih =>
    intro h
    obtain ⟨b, hb⟩ := h d (List.mem_cons_self d rest)
    have hrest := ih (fun d' hd' => h d' (List.mem_cons_of_mem d hd'))
    cases b with
    | true =>
      simp only [countMatchesF, hb, hrest, List.filter_cons]
      simp [isOkTrue, hb, Nat.add_comm]
    | false =>
      simp only [countMatchesF, hb, hrest, List.filter_cons]
      simp [isOkTrue, hb]

/-- When every predictor evaluates without error, so does the
evaluate-all-and-AND reference semantics. -/
theorem evalAllAnd_isOk (env : Env) (st : PredictionGameState) :
    ∀ ps : List Predictor, (∀ p ∈ ps, ∃ b, predict env p st = .ok b) →
      ∃ c, evalAllAnd env ps st = .ok c := by
  intro ps
  induction ps with
  | nil => intro _; exact ⟨true, rfl⟩
  | cons p rest ih =>
    intro h
    obtain ⟨b, hb⟩ := h p (List.mem_cons_self p rest)
    obtain ⟨c, hc⟩ := ih (fun q hq => h q (List.mem_cons_of_mem p hq))
    exact ⟨b && c, by simp only [evalAllAnd, hb, hc]⟩

/-- When every per-can garbage prediction succeeds, the can loop of
`Garbage::predict` succeeds. -/
theorem collectDrops_isOk (env : Env) (st : PredictionGameState) :
    ∀ cans : List GarbageCan, (∀ can ∈ cans, ∃ r, env.predict_garbage can st = .ok r) →
      ∃ rs, collectDrops env cans st = .ok rs := by
  intro cans
  induction cans with
  | nil => intro _; exact ⟨[], rfl⟩
  | cons can rest ih =>
    intro h
    obtain ⟨r, hr⟩ := h can (List.mem_cons_self can rest)
    obtain ⟨rs, hrs⟩ := ih (fun c hc => h c (List.mem_cons_of_mem can hc))
    cases r with
    | none => exact ⟨rs, by simp only [collectDrops, hr, hrs]⟩
    | some p => exact ⟨p.1 :: rs, by simp only [collectDrops, hr, hrs]⟩

/-- Claim C3: `DayRange::predict` evaluates the child once per day of the
inclusive interval `[start_day, end_day]` on a state with that day
substituted and returns true iff the number of matching days is at least
`min_matches`; the interval is empty when `start_day > end_day`, in which
case the result is true exactly when `min_matches = 0`. -/
theorem dayRange_predict_quorum (env : Env) (sd ed m : Nat) (child : Predictor)
    (st : PredictionGameState)
    (h : ∀ d ∈ List.range' sd (ed + 1 - sd), ∃ b, predict env child (withDay st d) = .ok b) :
    predict env (.dayRange sd ed m child) st =
      .ok (decide (m ≤ ((List.range' sd (ed + 1 - sd)).filter
          (fun d => isOkTrue (predict env child (withDay st d)))).length)) ∧
    (∀ d : Nat, d ∈ List.range' sd (ed + 1 - sd) ↔ sd ≤ d ∧ d ≤ ed) ∧
    (ed < sd → predict env (.dayRange sd ed m child) st = .ok (decide (m = 0))) := by
  refine ⟨?_, ?_, ?_⟩
  · have hc := countMatchesF_filter (predict env child) st (List.range' sd (ed + 1 - sd)) h
    simp only [predict, hc]
  · intro d
    rw [List.mem_range'_1]
    omega
  · intro hlt
    have h0 : ed + 1 - sd = 0 := by omega
    simp only [predict, h0, List.range']
    simp only [countMatchesF]
    congr 1
    rw [decide_eq_decide]
    omega

/-- Witness for C3: over the interval `[1, 6]` with a child predicting rain
exactly on even days, three matches suffice and four do not. -/
theorem dayRange_predict_quorum_witness :
    (∀ d ∈ List.range' 1 (6 + 1 - 1), ∃ b,
        predict envEvenRain rainPredictor (withDay stateW d) = .ok b) ∧
    (predict envEvenRain (.dayRange 1 6 3 rainPredictor) stateW =
        .ok (decide (3 ≤ ((List.range' 1 (6 + 1 - 1)).filter
            (fun d => isOkTrue (predict envEvenRain rainPredictor (withDay stateW d)))).length)) ∧
      (∀ d : Nat, d ∈ List.range' 1 (6 + 1 - 1) ↔ 1 ≤ d ∧ d ≤ 6) ∧
      (6 < 1 → predict envEvenRain (.dayRange 1 6 3 rainPredictor) stateW =
        .ok (decide (3 = 0)))) ∧
    predict envEvenRain (.dayRange 1 6 3 rainPredictor) stateW = .ok true ∧
    predict envEvenRain (.dayRange 1 6 4 rainPredictor) stateW = .ok false :=
  ⟨fun _ _ => ⟨_, by with_unfolding_all rfl⟩,
    dayRange_predict_quorum envEvenRain 1 6 3 rainPredictor stateW
      (fun _ _ => ⟨_, by with_unfolding_all rfl⟩),
    by with_unfolding_all rfl,
    by with_unfolding_all rfl⟩

/-- Claim C4: the engine's predictor loop evaluates the configured
predictors left to right and stops at the first `Ok(false)`, never invoking
a later predictor for that seed (the result is `Ok(false)` whatever the
rest of the list would do); for error-free (pure) predictors the
short-circuit result equals evaluating all predictors and AND-ing. -/
theorem conj_short_circuit (env : Env) (st : PredictionGameState) :
    (∀ (p : Predictor) (rest : List Predictor), predict env p st = .ok false →
      conjPredict env (p :: rest) st = .ok false) ∧
    (∀ ps : List Predictor, (∀ p ∈ ps, ∃ b, predict env p st = .ok b) →
      conjPredict env ps st = evalAllAnd env ps st) := by
  constructor
  · intro p rest hp
    simp only [conjPredict, hp]
  · intro ps
    induction ps with
    | nil => intro _; rfl
    | cons p rest ih =>
      intro h
      obtain ⟨b, hb⟩ := h p (List.mem_cons_self p rest)
      have hrest := ih (fun q hq => h q (List.mem_cons_of_mem p hq))
      obtain ⟨c, hc⟩ := evalAllAnd_isOk env st rest
        (fun q hq => h q (List.mem_cons_of_mem p hq))
      cases b with
      | false => simp only [conjPredict, evalAllAnd, hb, hc, Bool.false_and]
      | true =>
        simp only [conjPredict, evalAllAnd, hb, hc, Bool.true_and]
        rw [hrest, hc]

/-- Witness for C4: a failing first predictor short-circuits past a
predictor whose delegate would error, and the short-circuit loop agrees
with evaluate-all-and-AND on an error-free list. -/
theorem conj_short_circuit_witness :
    (predict envNoRain rainPredictor stateW = .ok false ∧
      conjPredict envNoRain (rainPredictor :: [geodePredictor]) stateW = .ok false) ∧
    ((∀ p ∈ [rainPredictor], ∃ b, predict envNoRain p stateW = .ok b) ∧
      conjPredict envNoRain [rainPredictor] stateW =
        evalAllAnd envNoRain [rainPredictor] stateW) :=
  ⟨⟨rainPredictor_envNoRain_false stateW,
      (conj_short_circuit envNoRain stateW).1 rainPredictor [geodePredictor]
        (rainPredictor_envNoRain_false stateW)⟩,
    ⟨by
      intro p hp
      rcases List.mem_singleton.mp hp with rfl
      exact ⟨false, rainPredictor_envNoRain_false stateW⟩,
      (conj_short_circuit envNoRain stateW).2 [rainPredictor] (by
        intro p hp
        rcases List.mem_singleton.mp hp with rfl
        exact ⟨false, rainPredictor_envNoRain_false stateW⟩)⟩⟩

/-- Claim C9: every state derived during prediction and search alters only
the named field: the day-substituted states of `DayRange::predict` differ
from the input only in `days_played`, and the per-seed states of the
search and report paths differ from the initial template only in
`game_id`. -/
theorem derived_state_frame (st : PredictionGameState) (d : Nat) (s : Int) :
    ((withDay st d).game_id = st.game_id ∧
     (withDay st d).multiplayer_id = st.multiplayer_id ∧
     (withDay st d).daily_luck = st.daily_luck ∧
     (withDay st d).geodes_cracked = st.geodes_cracked ∧
     (withDay st d).deepest_mine_level = st.deepest_mine_level ∧
     (withDay st d).days_played = d) ∧
    ((withSeed st s).multiplayer_id = st.multiplayer_id ∧
     (withSeed st s).days_played = st.days_played ∧
     (withSeed st s).daily_luck = st.daily_luck ∧
     (withSeed st s).geodes_cracked = st.geodes_cracked ∧
     (withSeed st s).deepest_mine_level = st.deepest_mine_level ∧
     (withSeed st s).game_id = seedToGameId s) :=
  ⟨⟨rfl, rfl, rfl, rfl, rfl, rfl⟩, ⟨rfl, rfl, rfl, rfl, rfl, rfl⟩⟩

/-- Claim C10: a `Garbage` predictor with an empty required-items list
returns `Ok(true)` on every state whose per-can garbage predictions all
succeed, whatever the cans contain. -/
theorem garbage_empty_items_vacuous (env : Env) (cans : List GarbageCan)
    (st : PredictionGameState)
    (h : ∀ can ∈ cans, ∃ r, env.predict_garbage can st = .ok r) :
    predict env (.garbage [] cans) st = .ok true := by
  obtain ⟨rs, hrs⟩ := collectDrops_isOk env st cans h
  simp only [predict, hrs]
  rfl

/-- Witness for C10 at a concrete environment, can list and state. -/
theorem garbage_empty_items_vacuous_witness :
    (∀ can ∈ [(⟨"JojaMart"⟩ : GarbageCan)], ∃ r,
        envNoRain.predict_garbage can stateW = .ok r) ∧
    predict envNoRain (.garbage [] [⟨"JojaMart"⟩]) stateW = .ok true :=
  ⟨fun _ _ => ⟨none, rfl⟩,
    garbage_empty_items_vacuous envNoRain [⟨"JojaMart"⟩] stateW (fun _ _ => ⟨none, rfl⟩)⟩

/-- The scanned range starts at seed `0`. -/
theorem scanSeeds_eq_cons :
    scanSeeds = (0 : Int) :: ((List.range 2147483646).map (fun n => Int.ofNat (n + 1))) := by
  unfold scanSeeds i32MaxNat
  have h : (2147483647 : Nat) = 2147483646 + 1 := by norm_num
  rw [h, List.range_succ_eq_map, List.map_cons, List.map_map]
  rfl

/-- An erroring per-seed test at the head of the scan aborts the whole
filter pass with that error. -/
theorem filterSeeds_cons_error (env : Env) (f : SeedFinder) (s : Int) (rest : List Int)
    (e : Err) (h : seedPasses env f s = .error e) :
    filterSeeds env f (s :: rest) = .error e := by
  simp only [filterSeeds, h]

/-- Claim C5 (the code at the failing input): with a predictor whose
delegate errors on the very first candidate, the whole synchronous scan
aborts with that error — the `.unwrap()` panic terminates the scan instead
of surfacing a recoverable per-candidate error, so no seed list is
produced. -/
theorem find_seeds_aborts_on_predictor_error :
    SeedFinder.find_seeds envGarbageFail finderGarbage = .error "garbage data unavailable" := by
  have hp : seedPasses envGarbageFail finderGarbage 0 = .error "garbage data unavailable" := by
    with_unfolding_all rfl
  unfold SeedFinder.find_seeds findSeedsAll
  rw [scanSeeds_eq_cons, filterSeeds_cons_error _ _ _ _ _ hp, exceptMap_error]

/-- The async filter pass keeps exactly the seeds the synchronous filter
pass keeps (the progress bookkeeping does not affect matching). -/
theorem asyncFilterSeeds_of_filterSeeds (env : Env) (f : SeedFinder) (ss : Nat) :
    ∀ (seeds : List Int) (c : Nat) (l : List Int), filterSeeds env f seeds = .ok l →
      ∃ c2 msgs, asyncFilterSeeds env f ss c seeds = .ok (c2, msgs, l) := by
  intro seeds
  induction seeds with
  | nil =>
    intro c l h
    simp only [filterSeeds] at h
    cases h
    exact ⟨c, [], rfl⟩
  | cons s rest ih =>
    intro c l h
    cases hp : seedPasses env f s with
    | error e =>
      rw [filterSeeds_cons_error _ _ _ _ _ hp] at h
      exact Except.noConfusion h
    | ok b =>
      cases hr : filterSeeds env f rest with
      | error e =>
        simp only [filterSeeds, hp, hr] at h
        exact Except.noConfusion h
      | ok tail =>
        cases b with
        | true =>
          simp only [filterSeeds, hp, hr, if_true] at h
          cases h
          obtain ⟨c2, msgs, hm⟩ := ih (asyncStep ss c s).1 tail hr
          exact ⟨c2, (asyncStep ss c s).2.toList ++ msgs,
            by simp only [asyncFilterSeeds, hp, hm, if_true]⟩
        | false =>
          simp only [filterSeeds, hp, hr, Bool.false_eq_true, if_false] at h
          cases h
          obtain ⟨c2, msgs, hm⟩ := ih (asyncStep ss c s).1 l hr
          exact ⟨c2, (asyncStep ss c s).2.toList ++ msgs,
            by simp only [asyncFilterSeeds, hp, hm, Bool.false_eq_true, if_false]⟩

/-- Claim C6: synchronous and streaming search have identical matching
semantics — when the total number of matching seeds is at most
`max_seeds`, the stream of `find_seeds_async` ends with a terminal
`Complete` message carrying exactly the list `find_seeds` returns. -/
theorem find_seeds_async_matches_sync (env : Env) (f : SeedFinder) (steps : Nat)
    (ms : List Int) (hall : findSeedsAll env f = .ok ms) (hcap : ms.length ≤ f.max_seeds) :
    ∃ prog out, SeedFinder.find_seeds_async env f steps = .ok prog ∧
      SeedFinder.find_seeds env f = .ok out ∧
      prog.getLast? = some (.complete out) := by
  obtain ⟨c2, msgs, hm⟩ :=
    asyncFilterSeeds_of_filterSeeds env f (stepSize steps) scanSeeds 0 ms hall
  refine ⟨msgs.map Progress.progress ++ [Progress.complete ms], ms, ?_, ?_, ?_⟩
  · unfold SeedFinder.find_seeds_async
    rw [hm, exceptMap_ok]
    show Except.ok (msgs.map Progress.progress ++
      [Progress.complete (ms.take f.max_seeds)]) = _
    rw [List.take_of_length_le hcap]
  · unfold SeedFinder.find_seeds
    rw [hall, exceptMap_ok, List.take_of_length_le hcap]
  · exact List.getLast?_concat _

/-- Witness for C6 at a concrete environment and finder. -/
theorem find_seeds_async_matches_sync_witness :
    (findSeedsAll envNoRain finderNoRain = .ok [] ∧
      ([] : List Int).length ≤ finderNoRain.max_seeds) ∧
    ∃ prog out, SeedFinder.find_seeds_async envNoRain finderNoRain 1000 = .ok prog ∧
      SeedFinder.find_seeds envNoRain finderNoRain = .ok out ∧
      prog.getLast? = some (.complete out) :=
  ⟨⟨filterSeeds_of_all_false envNoRain finderNoRain finderNoRain_all_false scanSeeds,
      Nat.zero_le _⟩,
    find_seeds_async_matches_sync envNoRain finderNoRain 1000 []
      (filterSeeds_of_all_false envNoRain finderNoRain finderNoRain_all_false scanSeeds)
      (Nat.zero_le _)⟩

/-- Counterexample to C7 as stated: at the first candidate of the first
step (seed `0`, `steps = 1000`, step width `⌊i32::MAX / 1000⌋ = 2147483`),
the shared counter is advanced to `2147483` but the emitted progress
message carries `1` — the pre-advance value plus one, not the counter's
new value. -/
theorem async_progress_value_cex :
    (asyncStep (stepSize 1000) 0 0).1 = 2147483 ∧
    (asyncStep (stepSize 1000) 0 0).2 = some 1 ∧ (1 : Nat) ≠ 2147483 := by
  decide


/-- The shape of the progress messages of a successful async filter pass:
the `i`-th message carries `c + ss * i + 1` — the counter value fetched
before the `i`-th advance, plus one — and the counter ends at `c` plus one
step width per emitted message. -/
theorem asyncFilterSeeds_msgs_shape (env : Env) (f : SeedFinder) (ss : Nat) :
    ∀ (seeds : List Int) (c c2 : Nat) (msgs : List Nat) (out : List Int),
      asyncFilterSeeds env f ss c seeds = .ok (c2, msgs, out) →
      msgs = (List.range msgs.length).map (fun i => c + ss * i + 1) ∧
      c2 = c + ss * msgs.length := by
  intro seeds
  induction seeds with
  | nil =>
    intro c c2 msgs out h
    simp only [asyncFilterSeeds, Except.ok.injEq, Prod.mk.injEq] at h
    obtain ⟨rfl, h2, h3⟩ := h
    subst h2
    exact ⟨rfl, by simp⟩
  | cons s rest ih =>
    intro c c2 msgs out h
    cases hp : seedPasses env f s with
    | error e =>
      simp only [asyncFilterSeeds, hp] at h
      exact Except.noConfusion h
    | ok b =>
      cases hrec : asyncFilterSeeds env f ss (asyncStep ss c s).1 rest with
      | error e =>
        simp only [asyncFilterSeeds, hp, hrec] at h
        exact Except.noConfusion h
      | ok triple =>
        obtain ⟨c2', msgs', out'⟩ := triple
        simp only [asyncFilterSeeds, hp, hrec, Except.ok.injEq, Prod.mk.injEq] at h
        obtain ⟨hA, hB, hC⟩ := h
        subst hA
        subst hB
        cases hcond : s.toNat % ss == 0 with
        | true =>
          have hstep : asyncStep ss c s = (c + ss, some (c + 1)) := by
            simp [asyncStep, hcond]
          simp only [hstep] at hrec
          obtain ⟨ih1, ih2⟩ := ih (c + ss) c2' msgs' out' hrec
          simp only [hstep, Option.toList_some, List.singleton_append, List.length_cons]
          constructor
          · rw [List.range_succ_eq_map, List.map_cons, List.map_map]
            congr 1
            rw [ih1]
            simp only [List.length_map, List.length_range]
            apply List.map_congr_left
            intro i _
            simp only [Function.comp_apply, Nat.succ_eq_add_one]
            ring
          · rw [ih2]
            ring
        | false =>
          have hstep : asyncStep ss c s = (c, none) := by
            simp [asyncStep, hcond]
          simp only [hstep] at hrec
          obtain ⟨ih1, ih2⟩ := ih c c2' msgs' out' hrec
          simp only [hstep, Option.toList_none, List.nil_append]
          exact ⟨ih1, ih2⟩

/-- Claim C7 (amended): over a successful async scan, whenever a worker
meets the first candidate of a progress step it advances the shared
counter by the step width and emits a message carrying the pre-advance
counter value plus one (the `i`-th message is `c + ss * i + 1`); the
message values are monotonically non-decreasing over the stream. -/
theorem async_progress_messages (env : Env) (f : SeedFinder) (ss : Nat)
    (seeds : List Int) (c c2 : Nat) (msgs : List Nat) (out : List Int)
    (h : asyncFilterSeeds env f ss c seeds = .ok (c2, msgs, out)) :
    msgs = (List.range msgs.length).map (fun i => c + ss * i + 1) ∧
    c2 = c + ss * msgs.length ∧
    List.Chain' (· ≤ ·) msgs := by
  obtain ⟨h1, h2⟩ := asyncFilterSeeds_msgs_shape env f ss seeds c c2 msgs out h
  refine ⟨h1, h2, ?_⟩
  rw [h1]
  apply List.Pairwise.chain'
  rw [List.pairwise_map]
  refine (List.pairwise_lt_range msgs.length).imp ?_
  intro a b hab
  have hm : ss * a ≤ ss * b := Nat.mul_le_mul_left ss (Nat.le_of_lt hab)
  exact Nat.add_le_add_right (Nat.add_le_add_left hm c) 1

/-- Witness for C7 (amended) on a concrete four-seed scan with step width
three: messages `[1, 4]`, counter `6`. -/
theorem async_progress_messages_witness :
    asyncFilterSeeds envNoRain finderNoRain 3 0 [0, 1, 2, 3] = .ok (6, [1, 4], []) ∧
    (([1, 4] : List Nat) = (List.range ([1, 4] : List Nat).length).map (fun i => 0 + 3 * i + 1) ∧
      (6 : Nat) = 0 + 3 * ([1, 4] : List Nat).length ∧
      List.Chain' (· ≤ ·) ([1, 4] : List Nat)) :=
  ⟨by with_unfolding_all rfl,
    async_progress_messages envNoRain finderNoRain 3 [0, 1, 2, 3] 0 6 [1, 4] []
      (by with_unfolding_all rfl)⟩

/-- If one element of the list fails, the whole collect fails. -/
theorem mapExcept_error_of_mem {α β : Type} (g : α → Except Err β) :
    ∀ (l : List α) (a : α), a ∈ l → (∃ e, g a = .error e) →
      ∃ e', mapExcept g l = .error e' := by
  intro l
  induction l with
  | nil => intro a ha; cases ha
  | cons x rest ih =>
    intro a ha he
    obtain ⟨e, hge⟩ := he
    cases hx : g x with
    | error e0 => exact ⟨e0, by simp only [mapExcept, hx]⟩
    | ok b =>
      rcases List.mem_cons.mp ha with rfl | ha'
      · rw [hx] at hge
        exact Except.noConfusion hge
      · obtain ⟨e', he'⟩ := ih a ha' ⟨e, hge⟩
        exact ⟨e', by simp only [mapExcept, hx, he']⟩

/-- Building a predictor from a configuration that references a rejected
item id, or that needs the missing `"Default"` location context, fails. -/
theorem predictor_build_fails (benv : BuildEnv) :
    ∀ pc : PredictorConfig,
      (refsBadItem benv pc ∨ (usesDefaultContext pc ∧ benv.locationContexts "Default" = none)) →
      ∃ e, PredictorConfig.predictor benv pc = .error e := by
  intro pc
  induction pc with
  | dayRange sd ed m child ih =>
    intro h
    simp only [refsBadItem, usesDefaultContext] at h
    obtain ⟨e, he⟩ := ih h
    exact ⟨e, by simp only [PredictorConfig.predictor, he]⟩
  | garbage items =>
    intro h
    simp only [refsBadItem, usesDefaultContext] at h
    rcases h with h | ⟨hw, -⟩
    · obtain ⟨s, hs, e, he⟩ := h
      cases hcans : mapExcept benv.newGarbageCan benv.garbageCanLocations with
      | error e0 => exact ⟨e0, by simp only [PredictorConfig.predictor, hcans]⟩
      | ok cans =>
        obtain ⟨e', he'⟩ := mapExcept_error_of_mem benv.parseItemId items s hs ⟨e, he⟩
        exact ⟨e', by simp only [PredictorConfig.predictor, hcans, he']⟩
    · cases hw
  | geode item q gt =>
    intro h
    simp only [refsBadItem, usesDefaultContext] at h
    rcases h with ⟨e, he⟩ | ⟨hw, -⟩
    · exact ⟨e, by simp only [PredictorConfig.predictor, he]⟩
    · cases hw
  | nightEvent ev =>
    intro h
    simp only [refsBadItem, usesDefaultContext] at h
    rcases h with h | ⟨hw, -⟩
    · cases h
    · cases hw
  | weather r s2 m2 =>
    intro h
    simp only [refsBadItem, usesDefaultContext] at h
    rcases h with h | ⟨-, hn⟩
    · cases h
    · exact ⟨"can't find default location context",
        by simp only [PredictorConfig.predictor, hn]⟩

/-- Claim C8: a configuration that references an item id the parser
rejects, or that needs the missing `"Default"` location context, makes
`SeedFinder::new` return an error before any search starts — no
`SeedFinder` is produced. -/
theorem seed_finder_new_rejects_bad_config (benv : BuildEnv) (cfg : SeedFinderConfig)
    (h : ∃ pc ∈ cfg.predictors,
      refsBadItem benv pc ∨ (usesDefaultContext pc ∧ benv.locationContexts "Default" = none)) :
    ∃ e, SeedFinder.new benv cfg = .error e := by
  obtain ⟨pc, hpc, hbad⟩ := h
  obtain ⟨e, he⟩ := predictor_build_fails benv pc hbad
  obtain ⟨e', he'⟩ :=
    mapExcept_error_of_mem (PredictorConfig.predictor benv) cfg.predictors pc hpc ⟨e, he⟩
  cases hr : cfg.rng_type with
  | hashed => exact ⟨e', by simp only [SeedFinder.new, hr, he']⟩
  | legacy => exact ⟨e', by simp only [SeedFinder.new, hr, he']⟩

/-- Witness for C8: the configuration with the unknown item id `"bogus"`
is rejected by `SeedFinder::new`. -/
theorem seed_finder_new_rejects_bad_config_witness :
    (∃ pc ∈ configBadItem.predictors,
      refsBadItem benvW pc ∨ (usesDefaultContext pc ∧ benvW.locationContexts "Default" = none)) ∧
    ∃ e, SeedFinder.new benvW configBadItem = .error e :=
  ⟨⟨.geode "bogus" 1 "geode", by simp [configBadItem],
      Or.inl ⟨_, by with_unfolding_all rfl⟩⟩,
    seed_finder_new_rejects_bad_config benvW configBadItem
      ⟨.geode "bogus" 1 "geode", by simp [configBadItem],
        Or.inl ⟨_, by with_unfolding_all rfl⟩⟩⟩
